import Mathlib

/-!
Verification of the stylo geometry and domain layer.

The shapes (`Ellipse.shape`, `rectangle`, `square`, `circle`) are embedded
from `src/stylo/drawable/geometry.py`; the domain model (`SquareDomain`,
`UnitSquare`) from `src/stylo/domain/square.py`.  Real-valued parameters are
modelled as rationals; Python float division, which raises
`ZeroDivisionError` on a zero divisor, is additionally modelled by a checked
variant returning `Option`.
-/

namespace Stylo

/-- Embeds `Ellipse.__init__` from `src/stylo/drawable/geometry.py`:
center `(x, y)`, semi-axes `a`, `b`, radius `r`, stored unvalidated. -/
structure Ellipse where
  x : ℚ
  y : ℚ
  a : ℚ
  b : ℚ
  r : ℚ
deriving DecidableEq, Repr

/-- Embeds the `Ellipse.shape` property: it captures `r * r`, `a`, `b`,
`x0`, `y0` and returns the closure testing
`(xc * xc) / a + (yc * yc) / b <= r`. -/
def Ellipse.shape (e : Ellipse) : ℚ → ℚ → Bool :=
  let r := e.r * e.r
  let a := e.a
  let b := e.b
  let x0 := e.x
  let y0 := e.y
  fun x y =>
    let xc := x - x0
    let yc := y - y0
    decide ((xc * xc) / a + (yc * yc) / b ≤ r)

/-- Python float division: raises `ZeroDivisionError` when the divisor is
zero, modelled as the `none` branch. -/
def pydiv (p q : ℚ) : Option ℚ :=
  if q = 0 then none else some (p / q)

/-- The `Ellipse.shape` closure with each division routed through `pydiv`,
so that the `ZeroDivisionError` branch is visible in the result type. -/
def Ellipse.shapeChecked (e : Ellipse) (x y : ℚ) : Option Bool := do
  let xc := x - e.x
  let yc := y - e.y
  let t1 ← pydiv (xc * xc) e.a
  let t2 ← pydiv (yc * yc) e.b
  pure (decide (t1 + t2 ≤ e.r * e.r))

/-- Embeds `between` from `src/stylo/drawable/geometry.py`:
`lower <= value <= upper`. -/
def between (lower value upper : ℚ) : Bool :=
  decide (lower ≤ value ∧ value ≤ upper)

/-- Embeds `rectangle` from `src/stylo/drawable/geometry.py`.  The source
computes `left`, `right`, `top`, `bottom` from the center and size, then
returns the closed-bounds test when `fill` is true, and otherwise the
outline predicate `rectangle(x, y) and not small(x, y)` where `small`
shrinks every side inward by `pt`.  The source defaults are `pt=0.2`,
`fill=False` (see `defaultPt`, `defaultFill`). -/
def rectangle (x0 y0 width height pt : ℚ) (fill : Bool) : ℚ → ℚ → Bool :=
  let left := x0 - (width / 2)
  let right := x0 + (width / 2)
  let top := y0 + (height / 2)
  let bottom := y0 - (height / 2)
  let rect := fun x y =>
    decide (left ≤ x ∧ x ≤ right ∧ bottom ≤ y ∧ y ≤ top)
  if fill then rect
  else
    let small := fun x y =>
      decide (left + pt ≤ x ∧ x ≤ right - pt ∧ bottom + pt ≤ y ∧ y ≤ top - pt)
    fun x y => rect x y && !(small x y)

/-- The source default `pt=0.2` of `rectangle`. -/
def defaultPt : ℚ := 1 / 5

/-- The source default `fill=False` of `rectangle`. -/
def defaultFill : Bool := false

/-- `rectangle` with each division routed through `pydiv`: the only
divisions are by the literal `2`. -/
def rectangleChecked (x0 y0 width height pt : ℚ) (fill : Bool)
    (x y : ℚ) : Option Bool := do
  let hw ← pydiv width 2
  let hh ← pydiv height 2
  let left := x0 - hw
  let right := x0 + hw
  let top := y0 + hh
  let bottom := y0 - hh
  let rect := decide (left ≤ x ∧ x ≤ right ∧ bottom ≤ y ∧ y ≤ top)
  if fill then pure rect
  else
    let small :=
      decide (left + pt ≤ x ∧ x ≤ right - pt ∧ bottom + pt ≤ y ∧ y ≤ top - pt)
    pure (rect && !small)

/-- Embeds `square` from `src/stylo/drawable/geometry.py`:
`rectangle(x0, y0, size, size, *args, **kwargs)`. -/
def square (x0 y0 size pt : ℚ) (fill : Bool) : ℚ → ℚ → Bool :=
  rectangle x0 y0 size size pt fill

/-- Modelled from the spec: the module-level function `ellipse` that
`circle` in `src/stylo/drawable/geometry.py` calls is not present under
`src/`; spec section 4.6 gives its membership test as
`((x - x0)^2) / a + ((y - y0)^2) / b <= r^2`, inclusive. -/
def ellipseFn (x0 y0 a b r : ℚ) : ℚ → ℚ → Bool :=
  fun x y =>
    decide ((x - x0) * (x - x0) / a + (y - y0) * (y - y0) / b ≤ r * r)

/-- Embeds `circle` from `src/stylo/drawable/geometry.py`:
`ellipse(x0, y0, 1, 1, r)`. -/
def circle (x0 y0 r : ℚ) : ℚ → ℚ → Bool :=
  ellipseFn x0 y0 1 1 r

/-- The ellipse membership test in the spec's words (section 4.6):
`((x - x0)^2) / a + ((y - y0)^2) / b <= r^2`, dividing by `a` and `b`
directly. -/
def ellipseSpecInside (x0 y0 a b r x yv : ℚ) : Prop :=
  (x - x0) ^ 2 / a + (yv - y0) ^ 2 / b ≤ r ^ 2

/-- The two error kinds of the domain layer (spec section 7): a
validation error (`min <= max` would break) and an immutability error
(writing a bound of `UnitSquare`). -/
inductive DomainError where
  | validation
  | immutability
deriving DecidableEq, Repr

/-- Modelled from the spec: `src/stylo/domain/rectangular.py` is not under
`src/`; per spec sections 3 and 4.2 a Rectangular Domain holds the four
bounds `xmin, xmax, ymin, ymax` mapped onto the `x` and `y` Coordinate
Fields. -/
structure RectangularDomain where
  xmin : ℚ
  xmax : ℚ
  ymin : ℚ
  ymax : ℚ
deriving DecidableEq, Repr

/-- A setter's outcome: the state after the call together with `none` on
success or the raised error.  On an error the state is the one at the
moment the exception propagates. -/
abbrev SetResult := RectangularDomain × Option DomainError

/-- Modelled from the spec: `RectangularDomain.xmin.fset` (in the missing
`rectangular.py`) writes `x.min`, failing with a validation error and no
state change when the new value would break `min <= max`. -/
def RectangularDomain.fsetXmin (d : RectangularDomain) (v : ℚ) : SetResult :=
  if v ≤ d.xmax then ({ d with xmin := v }, none)
  else (d, some .validation)

/-- Modelled from the spec: `RectangularDomain.xmax.fset` writes `x.max`,
failing with a validation error and no state change when `v < xmin`. -/
def RectangularDomain.fsetXmax (d : RectangularDomain) (v : ℚ) : SetResult :=
  if d.xmin ≤ v then ({ d with xmax := v }, none)
  else (d, some .validation)

/-- Modelled from the spec: `RectangularDomain.ymin.fset` writes `y.min`,
failing with a validation error and no state change when `v > ymax`. -/
def RectangularDomain.fsetYmin (d : RectangularDomain) (v : ℚ) : SetResult :=
  if v ≤ d.ymax then ({ d with ymin := v }, none)
  else (d, some .validation)

/-- Modelled from the spec: `RectangularDomain.ymax.fset` writes `y.max`,
failing with a validation error and no state change when `v < ymin`. -/
def RectangularDomain.fsetYmax (d : RectangularDomain) (v : ℚ) : SetResult :=
  if d.ymin ≤ v then ({ d with ymax := v }, none)
  else (d, some .validation)

/-- Modelled from the spec: `RectangularDomain.__init__` (in the missing
`rectangular.py`) fails if `xmin > xmax` or `ymin > ymax` (spec section
4.2). -/
def RectangularDomain.make (xmin xmax ymin ymax : ℚ) :
    Option RectangularDomain :=
  if xmin ≤ xmax ∧ ymin ≤ ymax then some ⟨xmin, xmax, ymin, ymax⟩ else none

/-- Runs a second field write after a first one, propagating an exception
from the first: when the first write raises, the second never runs; when
the second raises, the first write's effect persists. -/
def thenSet (r : SetResult) (k : RectangularDomain → SetResult) : SetResult :=
  match r with
  | (d1, none) => k d1
  | (d1, some e) => (d1, some e)

/-- Embeds `SquareDomain.__init__` from `src/stylo/domain/square.py`:
`super().__init__(x_min, x_max, x_min, x_max)`. -/
def SquareDomain.make (lo hi : ℚ) : Option RectangularDomain :=
  RectangularDomain.make lo hi lo hi

/-- Embeds the `SquareDomain.xmin` setter: write `x.min` then `y.min`. -/
def SquareDomain.setXmin (d : RectangularDomain) (v : ℚ) : SetResult :=
  thenSet (d.fsetXmin v) (fun d1 => d1.fsetYmin v)

/-- Embeds the `SquareDomain.ymin` setter: write `y.min` then `x.min`. -/
def SquareDomain.setYmin (d : RectangularDomain) (v : ℚ) : SetResult :=
  thenSet (d.fsetYmin v) (fun d1 => d1.fsetXmin v)

/-- Embeds the `SquareDomain.xmax` setter: write `x.max` then `y.max`. -/
def SquareDomain.setXmax (d : RectangularDomain) (v : ℚ) : SetResult :=
  thenSet (d.fsetXmax v) (fun d1 => d1.fsetYmax v)

/-- Embeds the `SquareDomain.ymax` setter: write `y.max` then `x.max`. -/
def SquareDomain.setYmax (d : RectangularDomain) (v : ℚ) : SetResult :=
  thenSet (d.fsetYmax v) (fun d1 => d1.fsetXmax v)

/-- Embeds `UnitSquare.__init__` from `src/stylo/domain/square.py`:
`super().__init__(0, 1)`. -/
def UnitSquare.make : Option RectangularDomain :=
  SquareDomain.make 0 1

/-- Embeds the `UnitSquare.xmin` setter: it raises
`AttributeError` before touching any field. -/
def UnitSquare.setXmin (d : RectangularDomain) (_v : ℚ) : SetResult :=
  (d, some .immutability)

/-- Embeds the `UnitSquare.xmax` setter: it raises before any write. -/
def UnitSquare.setXmax (d : RectangularDomain) (_v : ℚ) : SetResult :=
  (d, some .immutability)

/-- Embeds the `UnitSquare.ymin` setter: it raises before any write. -/
def UnitSquare.setYmin (d : RectangularDomain) (_v : ℚ) : SetResult :=
  (d, some .immutability)

/-- Embeds the `UnitSquare.ymax` setter: it raises before any write. -/
def UnitSquare.setYmax (d : RectangularDomain) (_v : ℚ) : SetResult :=
  (d, some .immutability)

/-- One setter invocation on a Square (or Unit Square) Domain instance. -/
inductive SquareOp where
  | opXmin (v : ℚ)
  | opXmax (v : ℚ)
  | opYmin (v : ℚ)
  | opYmax (v : ℚ)
deriving DecidableEq, Repr

/-- Dispatches one setter invocation on a `SquareDomain` instance. -/
def SquareOp.applySquare (op : SquareOp) (d : RectangularDomain) : SetResult :=
  match op with
  | .opXmin v => SquareDomain.setXmin d v
  | .opXmax v => SquareDomain.setXmax d v
  | .opYmin v => SquareDomain.setYmin d v
  | .opYmax v => SquareDomain.setYmax d v

/-- Dispatches one setter invocation on a `UnitSquare` instance. -/
def SquareOp.applyUnit (op : SquareOp) (d : RectangularDomain) : SetResult :=
  match op with
  | .opXmin v => UnitSquare.setXmin d v
  | .opXmax v => UnitSquare.setXmax d v
  | .opYmin v => UnitSquare.setYmin d v
  | .opYmax v => UnitSquare.setYmax d v

/-- The state of a `SquareDomain` instance after a sequence of setter
calls, keeping the state left behind by failed calls as well. -/
def runSquare (d : RectangularDomain) (ops : List SquareOp) :
    RectangularDomain :=
  ops.foldl (fun s op => (op.applySquare s).1) d

/-- The state of a `UnitSquare` instance after a sequence of setter
calls. -/
def runUnit (d : RectangularDomain) (ops : List SquareOp) :
    RectangularDomain :=
  ops.foldl (fun s op => (op.applyUnit s).1) d

/-- The Square Domain invariant of spec section 3: `xmin == ymin` and
`xmax == ymax`. -/
def squareInv (d : RectangularDomain) : Prop :=
  d.xmin = d.ymin ∧ d.xmax = d.ymax

instance (d : RectangularDomain) : Decidable (squareInv d) := by
  unfold squareInv; infer_instance

/-! ## Helper lemmas -/

/-- Every `SquareDomain` setter preserves the Square invariant, on success
and on failure alike. -/
theorem squareInv_applySquare (op : SquareOp) (d : RectangularDomain)
    (h : squareInv d) : squareInv (op.applySquare d).1 := by
  obtain ⟨h1, h2⟩ := h
  cases op <;>
    simp only [SquareOp.applySquare, SquareDomain.setXmin, SquareDomain.setXmax,
      SquareDomain.setYmin, SquareDomain.setYmax, RectangularDomain.fsetXmin,
      RectangularDomain.fsetXmax, RectangularDomain.fsetYmin,
      RectangularDomain.fsetYmax, thenSet] <;>
    split_ifs <;>
    simp_all [squareInv]

/-- Every `UnitSquare` setter leaves the state untouched. -/
theorem applyUnit_fst (op : SquareOp) (d : RectangularDomain) :
    (op.applyUnit d).1 = d := by
  cases op <;> rfl

/-- The `fill=True` branch of `rectangle` holds exactly on the closed
rectangle. -/
theorem rectangle_fill_iff (x0 y0 width height pt x y : ℚ) :
    rectangle x0 y0 width height pt true x y = true ↔
      (x0 - width / 2 ≤ x ∧ x ≤ x0 + width / 2 ∧
       y0 - height / 2 ≤ y ∧ y ≤ y0 + height / 2) := by
  simp [rectangle]

/-- The default `fill=False` branch of `rectangle` holds exactly on the
closed outer rectangle minus the `pt`-inset inner rectangle. -/
theorem rectangle_outline_iff (x0 y0 width height pt x y : ℚ) :
    rectangle x0 y0 width height pt false x y = true ↔
      ((x0 - width / 2 ≤ x ∧ x ≤ x0 + width / 2 ∧
        y0 - height / 2 ≤ y ∧ y ≤ y0 + height / 2) ∧
       ¬(x0 - width / 2 + pt ≤ x ∧ x ≤ x0 + width / 2 - pt ∧
         y0 - height / 2 + pt ≤ y ∧ y ≤ y0 + height / 2 - pt)) := by
  simp only [rectangle, Bool.false_eq_true, if_false, Bool.and_eq_true,
    Bool.not_eq_true', decide_eq_true_eq, decide_eq_false_iff_not]

/-- The `circle` predicate holds exactly when
`(x - x0)^2 + (y - y0)^2 <= r^2` (after the unit semi-axes divide out). -/
theorem circle_iff (x0 y0 r x y : ℚ) :
    circle x0 y0 r x y = true ↔
      (x - x0) * (x - x0) / 1 + (y - y0) * (y - y0) / 1 ≤ r * r := by
  simp [circle, ellipseFn]

/-- The `Ellipse.shape` predicate holds exactly when
`(x - x0)^2 / a + (y - y0)^2 / b <= r^2`. -/
theorem ellipse_shape_iff (e : Ellipse) (x y : ℚ) :
    e.shape x y = true ↔
      (x - e.x) * (x - e.x) / e.a + (y - e.y) * (y - e.y) / e.b ≤
        e.r * e.r := by
  simp [Ellipse.shape]

/-! ## Claims -/

/-- C1 (amended): with `fill=True` the rectangle predicate holds exactly on
the closed rectangle `left ≤ x ≤ right` and `bottom ≤ y ≤ top` — bounds
inclusive, so a boundary point IS a member; under the source defaults
(`pt=0.2`, `fill=False`) only the outline band is a member, so
`Rectangle(0, 0, 2, 2)` gives `False` at `(0, 0)`, `True` at `(1, 0)` and
`True` at `(0.999, 0)`. -/
theorem c1_rectangle_inclusive_bounds :
    (∀ x0 y0 width height pt x y,
      rectangle x0 y0 width height pt true x y = true ↔
        (x0 - width / 2 ≤ x ∧ x ≤ x0 + width / 2 ∧
         y0 - height / 2 ≤ y ∧ y ≤ y0 + height / 2)) ∧
    rectangle 0 0 2 2 defaultPt defaultFill 0 0 = false ∧
    rectangle 0 0 2 2 defaultPt defaultFill 1 0 = true ∧
    rectangle 0 0 2 2 defaultPt defaultFill (999/1000) 0 = true := by
  refine ⟨rectangle_fill_iff, ?_, ?_, ?_⟩
  · rw [← Bool.not_eq_true]
    rw [defaultPt, defaultFill, rectangle_outline_iff]
    norm_num
  · rw [defaultPt, defaultFill, rectangle_outline_iff]
    norm_num
  · rw [defaultPt, defaultFill, rectangle_outline_iff]
    norm_num

/-- C1 counterexample: the claim says `Rectangle(0, 0, 2, 2)`'s predicate is
`False` at `(1, 0)` and `True` at `(0, 0)`; the code (default `pt=0.2`,
`fill=False`) returns `True` at `(1, 0)` — the bound is inclusive, not
strict — and `False` at `(0, 0)`, which lies in the outline's hole. -/
theorem c1_rectangle_strict_counterexample :
    rectangle 0 0 2 2 defaultPt defaultFill 1 0 = true ∧
    rectangle 0 0 2 2 defaultPt defaultFill 0 0 = false := by
  constructor
  · rw [defaultPt, defaultFill, rectangle_outline_iff]
    norm_num
  · rw [← Bool.not_eq_true]
    rw [defaultPt, defaultFill, rectangle_outline_iff]
    norm_num

/-- C2: `circle` is the ellipse special case `a = b = 1`, and for the unit
circle at the origin the predicate is `True` at the center `(0, 0)`,
`False` at `(2, 0)`, and `True` at the boundary point `(1, 0)` — the test
is inclusive. -/
theorem c2_circle_special_case :
    (∀ x0 y0 r x y, circle x0 y0 r x y = (Ellipse.mk x0 y0 1 1 r).shape x y) ∧
    circle 0 0 1 0 0 = true ∧
    circle 0 0 1 2 0 = false ∧
    circle 0 0 1 1 0 = true := by
  refine ⟨fun x0 y0 r x y => rfl, ?_, ?_, ?_⟩
  · rw [circle_iff]; norm_num
  · rw [← Bool.not_eq_true, circle_iff]; norm_num
  · rw [circle_iff]; norm_num

/-- C3 counterexample: the claim says evaluating any shape's predicate at
any point is well-defined for every parameter values including zero, but
`Ellipse(0, 0, 0, 1, 1)` divides by its semi-axis `a = 0` at every point —
the `ZeroDivisionError` branch is reached. -/
theorem c3_zero_axis_counterexample :
    (Ellipse.mk 0 0 0 1 1).shapeChecked 0 0 = none := by
  simp [Ellipse.shapeChecked, pydiv]

/-- C3 (amended): shape constructors perform no validation; the rectangle
and square predicates are well-defined at every point for all parameter
values (their only divisions are by the literal 2), and the ellipse
predicate is well-defined whenever `a ≠ 0` and `b ≠ 0`; with a zero
semi-axis the ellipse predicate reaches the division-by-zero error
branch. -/
theorem c3_predicates_total :
    (∀ x0 y0 width height pt fill x y,
      rectangleChecked x0 y0 width height pt fill x y =
        some (rectangle x0 y0 width height pt fill x y)) ∧
    (∀ (e : Ellipse) (x y : ℚ), e.a ≠ 0 → e.b ≠ 0 →
      e.shapeChecked x y = some (e.shape x y)) := by
  constructor
  · intro x0 y0 width height pt fill x y
    have h2 : (2 : ℚ) ≠ 0 := by norm_num
    cases fill <;>
      simp [rectangleChecked, rectangle, pydiv, h2]
  · intro e x y ha hb
    simp [Ellipse.shapeChecked, Ellipse.shape, pydiv, ha, hb]

/-- C3 witness: at concrete inputs the rectangle and ellipse checked
predicates both return a value. -/
theorem c3_predicates_total_witness :
    rectangleChecked 0 0 2 2 (1/5) false 1 0 =
      some (rectangle 0 0 2 2 (1/5) false 1 0) ∧
    (Ellipse.mk 0 0 4 9 1).shapeChecked 2 0 =
      some ((Ellipse.mk 0 0 4 9 1).shape 2 0) :=
  ⟨c3_predicates_total.1 0 0 2 2 (1/5) false 1 0,
   c3_predicates_total.2 (Ellipse.mk 0 0 4 9 1) 2 0
     (by norm_num) (by norm_num)⟩

/-- C4: the `Ellipse.shape` predicate holds exactly when
`(x - x0)^2 / a + (y - y0)^2 / b ≤ r^2`, dividing by `a` and `b` directly
with an inclusive comparison; `Ellipse(0, 0, 4, 9, 1)` gives `True` at
`(2, 0)` and `False` at `(2.1, 0)`. -/
theorem c4_ellipse_membership :
    (∀ (e : Ellipse), e.a ≠ 0 → e.b ≠ 0 → ∀ x y,
      (e.shape x y = true ↔ ellipseSpecInside e.x e.y e.a e.b e.r x y)) ∧
    (Ellipse.mk 0 0 4 9 1).shape 2 0 = true ∧
    (Ellipse.mk 0 0 4 9 1).shape (21/10) 0 = false := by
  refine ⟨?_, ?_, ?_⟩
  · intro e _ha _hb x y
    rw [ellipse_shape_iff]
    unfold ellipseSpecInside
    constructor <;> intro h <;> [skip; skip] <;> ring_nf at h ⊢ <;> linarith
  · rw [ellipse_shape_iff]; norm_num
  · rw [← Bool.not_eq_true, ellipse_shape_iff]; norm_num

/-- C4 witness: the membership characterization instantiated at
`Ellipse(0, 0, 4, 9, 1)` and the point `(2, 0)`. -/
theorem c4_ellipse_membership_witness :
    (Ellipse.mk 0 0 4 9 1).shape 2 0 = true ↔
      ellipseSpecInside 0 0 4 9 1 2 0 :=
  c4_ellipse_membership.1 (Ellipse.mk 0 0 4 9 1)
    (by norm_num) (by norm_num) 2 0

/-- C5: constructing `SquareDomain(lo, hi)` with `lo ≤ hi` initializes both
axes to `[lo, hi]`, and the invariant `xmin = ymin ∧ xmax = ymax` holds
after any sequence of setter calls, whether each call succeeds or fails. -/
theorem c5_square_domain_invariant :
    ∀ lo hi : ℚ, lo ≤ hi →
      ∀ d0, SquareDomain.make lo hi = some d0 →
        (d0.xmin = lo ∧ d0.ymin = lo ∧ d0.xmax = hi ∧ d0.ymax = hi) ∧
        ∀ ops : List SquareOp, squareInv (runSquare d0 ops) := by
  intro lo hi hle d0 hmk
  have hd0 : d0 = ⟨lo, hi, lo, hi⟩ := by
    simp [SquareDomain.make, RectangularDomain.make, hle] at hmk
    exact hmk.symm
  subst hd0
  refine ⟨⟨rfl, rfl, rfl, rfl⟩, ?_⟩
  intro ops
  have main : ∀ (l : List SquareOp) (d : RectangularDomain),
      squareInv d → squareInv (runSquare d l) := by
    intro l
    induction l with
    | nil => intro d h; exact h
    | cons op rest ih =>
        intro d h
        have hstep := squareInv_applySquare op d h
        simpa [runSquare, List.foldl] using ih (op.applySquare d).1 hstep
  exact main ops ⟨lo, hi, lo, hi⟩ ⟨rfl, rfl⟩

/-- C5 witness: the invariant holds on `SquareDomain(0, 1)` after a
concrete mix of succeeding and failing setter calls. -/
theorem c5_square_domain_invariant_witness :
    squareInv (runSquare ⟨0, 1, 0, 1⟩
      [SquareOp.opXmin (1/2), SquareOp.opXmax 3, SquareOp.opYmin 7]) :=
  ((c5_square_domain_invariant 0 1 (by norm_num) ⟨0, 1, 0, 1⟩
    (by simp [SquareDomain.make, RectangularDomain.make])).2
    [SquareOp.opXmin (1/2), SquareOp.opXmax 3, SquareOp.opYmin 7])

/-- C6: setting `xmin` to a value strictly above the current `xmax` fails
with a validation error and returns the state with all four bounds
unchanged, both on a Rectangular Domain and through the coupled
`SquareDomain` setter. -/
theorem c6_xmin_above_xmax_fails :
    ∀ (d : RectangularDomain) (v : ℚ), d.xmax < v →
      RectangularDomain.fsetXmin d v = (d, some DomainError.validation) ∧
      SquareDomain.setXmin d v = (d, some DomainError.validation) := by
  intro d v h
  have hnot : ¬ v ≤ d.xmax := not_le.mpr h
  constructor
  · simp [RectangularDomain.fsetXmin, hnot]
  · simp [SquareDomain.setXmin, RectangularDomain.fsetXmin, hnot, thenSet]

/-- C6 witness: on the square domain `[0, 1] × [0, 1]`, setting `xmin := 2`
fails and changes nothing. -/
theorem c6_xmin_above_xmax_fails_witness :
    SquareDomain.setXmin ⟨0, 1, 0, 1⟩ 2 =
      (⟨0, 1, 0, 1⟩, some DomainError.validation) :=
  (c6_xmin_above_xmax_fails ⟨0, 1, 0, 1⟩ 2 (by norm_num)).2

/-- C7: on a Square Domain state, setting `xmin := v` with `v ≤ xmax`
succeeds, sets both `xmin` and `ymin` to `v` and leaves `xmax`, `ymax`
unchanged; symmetrically for `ymin`, and for `xmax`/`ymax` with
`xmin ≤ v`. -/
theorem c7_coupled_setter_frame :
    ∀ (d : RectangularDomain) (v : ℚ), squareInv d →
      (v ≤ d.xmax →
        SquareDomain.setXmin d v = (⟨v, d.xmax, v, d.ymax⟩, none) ∧
        SquareDomain.setYmin d v = (⟨v, d.xmax, v, d.ymax⟩, none)) ∧
      (d.xmin ≤ v →
        SquareDomain.setXmax d v = (⟨d.xmin, v, d.ymin, v⟩, none) ∧
        SquareDomain.setYmax d v = (⟨d.xmin, v, d.ymin, v⟩, none)) := by
  intro d v h
  obtain ⟨h1, h2⟩ := h
  constructor
  · intro hv
    have hvy : v ≤ d.ymax := h2 ▸ hv
    constructor <;>
      simp [SquareDomain.setXmin, SquareDomain.setYmin, thenSet,
        RectangularDomain.fsetXmin, RectangularDomain.fsetYmin, hv, hvy]
  · intro hv
    have hvy : d.ymin ≤ v := h1 ▸ hv
    constructor <;>
      simp [SquareDomain.setXmax, SquareDomain.setYmax, thenSet,
        RectangularDomain.fsetXmax, RectangularDomain.fsetYmax, hv, hvy]

/-- C7 witness: on `[0, 1] × [0, 1]`, setting `xmin := 1/2` yields
`[1/2, 1] × [1/2, 1]` with no error. -/
theorem c7_coupled_setter_frame_witness :
    SquareDomain.setXmin ⟨0, 1, 0, 1⟩ (1/2) = (⟨1/2, 1, 1/2, 1⟩, none) :=
  ((c7_coupled_setter_frame ⟨0, 1, 0, 1⟩ (1/2) ⟨rfl, rfl⟩).1
    (by norm_num)).1

/-- C8: a fresh `UnitSquare` reads bounds `0, 1, 0, 1`; every setter raises
an immutability error leaving the state exactly as it was, and after any
sequence of attempted writes the bounds still read `0, 1, 0, 1`. -/
theorem c8_unit_square_immutable :
    UnitSquare.make = some ⟨0, 1, 0, 1⟩ ∧
    (∀ (d : RectangularDomain) (v : ℚ),
      UnitSquare.setXmin d v = (d, some DomainError.immutability) ∧
      UnitSquare.setXmax d v = (d, some DomainError.immutability) ∧
      UnitSquare.setYmin d v = (d, some DomainError.immutability) ∧
      UnitSquare.setYmax d v = (d, some DomainError.immutability)) ∧
    (∀ ops : List SquareOp, runUnit ⟨0, 1, 0, 1⟩ ops = ⟨0, 1, 0, 1⟩) := by
  refine ⟨?_, fun d v => ⟨rfl, rfl, rfl, rfl⟩, ?_⟩
  · simp [UnitSquare.make, SquareDomain.make, RectangularDomain.make]
  · have main : ∀ (l : List SquareOp) (d : RectangularDomain),
        runUnit d l = d := by
      intro l
      induction l with
      | nil => intro d; rfl
      | cons op rest ih =>
          intro d
          simp [runUnit, List.foldl, applyUnit_fst]
    intro ops
    exact main ops ⟨0, 1, 0, 1⟩

/-- C9: `square` delegates to `rectangle` with `width = height = size`, so
the two predicates agree at every point for every parameters; in
particular `Square(0, 0, 2)` and `Rectangle(0, 0, 2, 2)` agree
everywhere. -/
theorem c9_square_refines_rectangle :
    (∀ x0 y0 size pt fill x y,
      square x0 y0 size pt fill x y = rectangle x0 y0 size size pt fill x y) ∧
    (∀ pt fill x y,
      square 0 0 2 pt fill x y = rectangle 0 0 2 2 pt fill x y) :=
  ⟨fun _ _ _ _ _ _ _ => rfl, fun _ _ _ _ => rfl⟩

/-- C10: `rectangle` takes `pt` (default `0.2`) and `fill` (default
`False`); with `fill=True` the predicate is the closed rectangle test, and
with `fill=False` it holds exactly on the closed outer rectangle minus the
inner rectangle shrunk inward by `pt` on every side
(`left + pt ≤ x ≤ right - pt` and `bottom + pt ≤ y ≤ top - pt`) — the
outline band. -/
theorem c10_rectangle_fill_and_outline :
    defaultPt = 1/5 ∧ defaultFill = false ∧
    ∀ x0 y0 width height pt x y,
      (rectangle x0 y0 width height pt true x y = true ↔
        (x0 - width / 2 ≤ x ∧ x ≤ x0 + width / 2 ∧
         y0 - height / 2 ≤ y ∧ y ≤ y0 + height / 2)) ∧
      (rectangle x0 y0 width height pt false x y = true ↔
        ((x0 - width / 2 ≤ x ∧ x ≤ x0 + width / 2 ∧
          y0 - height / 2 ≤ y ∧ y ≤ y0 + height / 2) ∧
         ¬(x0 - width / 2 + pt ≤ x ∧ x ≤ x0 + width / 2 - pt ∧
           y0 - height / 2 + pt ≤ y ∧ y ≤ y0 + height / 2 - pt))) :=
  ⟨rfl, rfl, fun x0 y0 width height pt x y =>
    ⟨rectangle_fill_iff x0 y0 width height pt x y,
     rectangle_outline_iff x0 y0 width height pt x y⟩⟩

end Stylo
